import Mathlib

/-!
Shallow embedding of the workout state machine of `jokkerin-ventti`
(`src/workout-state.ts`, the version with per-phase handler functions:
`createInitialState`, `tick`, `handleReadyTick`, `handleWorkoutTick`,
`handleRestTick`, `handleFinishedTick`, `transitionToRest`,
`advanceToNextRound`), together with theorems settling the specification
claims about it.

Numbers are modelled as `Int` (JS numbers used integrally here); array
indexing `exercises[i]` is modelled by `exerciseAt?`, which is `none`
exactly when the JS access would yield `undefined` and a subsequent
property access would crash, so every handler that dereferences the
current exercise returns an `Option`.
-/

namespace JokkerinVentti

/-- The `WorkoutPhase` enum of `workout-state.ts`. -/
inductive WorkoutPhase where
  | ready
  | workout
  | rest
  | finished
deriving DecidableEq, Repr

/-- The five sound cues of the `play_sound` event. -/
inductive Sound where
  | start
  | pause
  | almostStart
  | almostPause
  | intermediate
deriving DecidableEq, Repr

/-- The `WorkoutEvent` tagged union. -/
inductive WorkoutEvent where
  | startExercise (exerciseName : String)
  | playSound (sound : Sound)
  | phaseChange (phase : WorkoutPhase)
  | finished
deriving DecidableEq, Repr

/-- The `Exercise` interface of `types.ts`; `intermediateBeeps` is the
optional array of intermediate-beep timer offsets. -/
structure Exercise where
  name : String
  workoutTime : Int
  pauseTime : Int
  setCount : Int
  intermediateBeeps : Option (List Int)
deriving DecidableEq, Repr

/-- The `WorkoutState` record. -/
structure WorkoutState where
  phase : WorkoutPhase
  exerciseIndex : Int
  setIndex : Int
  workoutTimer : Int
  pauseTimer : Int
deriving DecidableEq, Repr

/-- The `TickResult` pair returned by `tick` and the handlers. -/
structure TickResult where
  newState : WorkoutState
  events : List WorkoutEvent
deriving DecidableEq, Repr

/-- JS array access `exercises[i]`: `none` when out of range (JS
`undefined`). -/
def exerciseAt? (exercises : List Exercise) (i : Int) : Option Exercise :=
  if 0 ≤ i then exercises[i.toNat]? else none

/-- `const READY_PHASE_DURATION = 10` (seconds before the first exercise
starts). -/
def READY_PHASE_DURATION : Int := 10

/-- `createInitialState(exercises)`. -/
def createInitialState (exercises : List Exercise) : WorkoutState :=
  match exercises with
  | [] =>
      { phase := WorkoutPhase.finished, exerciseIndex := 0, setIndex := 0,
        workoutTimer := 0, pauseTimer := 0 }
  | e :: _ =>
      { phase := WorkoutPhase.ready, exerciseIndex := 0, setIndex := 1,
        workoutTimer := e.workoutTime, pauseTimer := READY_PHASE_DURATION }

/-- `transitionToRest(state)`: set phase to Rest and emit only the
`phase_change` event. -/
def transitionToRest (state : WorkoutState) : TickResult :=
  { newState := { state with phase := WorkoutPhase.rest },
    events := [WorkoutEvent.phaseChange WorkoutPhase.rest] }

/-- `advanceToNextRound(state, exercises)`: increment `setIndex`; roll over
to the next exercise when it exceeds `setCount`; finish when the exercise
index runs off the end; otherwise reset both timers from the (new) current
exercise and re-enter Workout. -/
def advanceToNextRound (state : WorkoutState) (exercises : List Exercise) :
    Option TickResult :=
  match exerciseAt? exercises state.exerciseIndex with
  | none => none
  | some currentExercise =>
    let setIndex1 := state.setIndex + 1
    if setIndex1 > currentExercise.setCount then
      let exerciseIndex1 := state.exerciseIndex + 1
      if exerciseIndex1 ≥ (exercises.length : Int) then
        some { newState := { state with
                 exerciseIndex := exerciseIndex1
                 setIndex := 1
                 phase := WorkoutPhase.finished },
               events := [WorkoutEvent.finished] }
      else
        match exerciseAt? exercises exerciseIndex1 with
        | none => none
        | some nextEx =>
          some { newState := { state with
                   exerciseIndex := exerciseIndex1
                   setIndex := 1
                   workoutTimer := nextEx.workoutTime
                   pauseTimer := nextEx.pauseTime
                   phase := WorkoutPhase.workout },
                 events := [WorkoutEvent.startExercise nextEx.name,
                            WorkoutEvent.playSound Sound.start,
                            WorkoutEvent.phaseChange WorkoutPhase.workout] }
    else
      some { newState := { state with
               setIndex := setIndex1
               workoutTimer := currentExercise.workoutTime
               pauseTimer := currentExercise.pauseTime
               phase := WorkoutPhase.workout },
             events := [WorkoutEvent.playSound Sound.start,
                        WorkoutEvent.phaseChange WorkoutPhase.workout] }

/-- `handleReadyTick(state, exercises)`: count the lead-in down while
`pauseTimer > 1`; on the last lead-in second transition to Workout. The
current exercise is dereferenced only in the transition branch. -/
def handleReadyTick (state : WorkoutState) (exercises : List Exercise) :
    Option TickResult :=
  if state.pauseTimer > 1 then
    let pt := state.pauseTimer - 1
    some { newState := { state with pauseTimer := pt },
           events :=
             if pt ≤ 3 ∧ pt > 0 then [WorkoutEvent.playSound Sound.almostStart]
             else [] }
  else
    match exerciseAt? exercises state.exerciseIndex with
    | none => none
    | some currentExercise =>
      some { newState := { state with phase := WorkoutPhase.workout },
             events := [WorkoutEvent.playSound Sound.start,
                        WorkoutEvent.phaseChange WorkoutPhase.workout,
                        WorkoutEvent.startExercise currentExercise.name] }

/-- `handleWorkoutTick(state, exercises)`: decrement `workoutTimer` while
above 1 with the sound cues; at 1, divert to Rest unless this is the last
set of the last exercise, in which case advance directly. The defensive
phase-fix block of the source is kept; the events it pushes are dropped on
the non-countdown paths, exactly as the source's handler-local event list
is discarded when it returns `transitionToRest`/`advanceToNextRound`. -/
def handleWorkoutTick (state : WorkoutState) (exercises : List Exercise) :
    Option TickResult :=
  match exerciseAt? exercises state.exerciseIndex with
  | none => none
  | some currentExercise =>
    let phase0 :=
      if state.phase ≠ WorkoutPhase.workout then WorkoutPhase.workout
      else state.phase
    let events0 : List WorkoutEvent :=
      if state.phase ≠ WorkoutPhase.workout then
        [WorkoutEvent.phaseChange WorkoutPhase.workout]
      else []
    if state.workoutTimer > 1 then
      let wt := state.workoutTimer - 1
      let soundEvents : List WorkoutEvent :=
        if wt = 0 then [WorkoutEvent.playSound Sound.pause]
        else if wt ≤ 3 ∧ wt > 0 then [WorkoutEvent.playSound Sound.almostPause]
        else []
      let beepEvents : List WorkoutEvent :=
        match currentExercise.intermediateBeeps with
        | some beeps =>
            if beeps.contains wt then [WorkoutEvent.playSound Sound.intermediate]
            else []
        | none => []
      some { newState := { state with phase := phase0, workoutTimer := wt },
             events := events0 ++ soundEvents ++ beepEvents }
    else
      let isLastSetOfLastExample :=
        state.exerciseIndex = (exercises.length : Int) - 1 ∧
          state.setIndex = currentExercise.setCount
      if isLastSetOfLastExample then
        advanceToNextRound { state with phase := phase0 } exercises
      else
        some (transitionToRest { state with phase := phase0 })

/-- `handleRestTick(state, exercises)`: count `pauseTimer` down while above
1 and not at the terminal set; otherwise advance to the next round. -/
def handleRestTick (state : WorkoutState) (exercises : List Exercise) :
    Option TickResult :=
  match exerciseAt? exercises state.exerciseIndex with
  | none => none
  | some currentExercise =>
    let phase0 :=
      if state.phase ≠ WorkoutPhase.rest then WorkoutPhase.rest else state.phase
    let events0 : List WorkoutEvent :=
      if state.phase ≠ WorkoutPhase.rest then
        [WorkoutEvent.phaseChange WorkoutPhase.rest]
      else []
    let isLastSetOfLastExample :=
      state.exerciseIndex = (exercises.length : Int) - 1 ∧
        state.setIndex = currentExercise.setCount
    if state.pauseTimer > 1 ∧ ¬isLastSetOfLastExample then
      let pt := state.pauseTimer - 1
      some { newState := { state with phase := phase0, pauseTimer := pt },
             events :=
               events0 ++
                 (if pt ≤ 3 ∧ pt > 0 then
                    [WorkoutEvent.playSound Sound.almostStart]
                  else []) }
    else
      advanceToNextRound { state with phase := phase0 } exercises

/-- `handleFinishedTick(state)`: identical state, no events. -/
def handleFinishedTick (state : WorkoutState) : TickResult :=
  { newState := state, events := [] }

/-- `tick(state, exercises)`: dispatch on the phase. -/
def tick (state : WorkoutState) (exercises : List Exercise) :
    Option TickResult :=
  match state.phase with
  | WorkoutPhase.ready => handleReadyTick state exercises
  | WorkoutPhase.workout => handleWorkoutTick state exercises
  | WorkoutPhase.rest => handleRestTick state exercises
  | WorkoutPhase.finished => some (handleFinishedTick state)

/-- Run `tick` for `n` ticks, accumulating the events of every tick in
emission order. -/
def runTicks (exercises : List Exercise) :
    Nat → WorkoutState → Option (WorkoutState × List WorkoutEvent)
  | 0, s => some (s, [])
  | n + 1, s =>
    match tick s exercises with
    | none => none
    | some r =>
      match runTicks exercises n r.newState with
      | none => none
      | some (s1, evs) => some (s1, r.events ++ evs)

/-- Well-formedness of the supplied exercise list, per the spec's data
model: work duration at least 1, rest duration at least 0, set count at
least 1. -/
def WellFormed (exercises : List Exercise) : Prop :=
  ∀ e ∈ exercises, 1 ≤ e.workoutTime ∧ 0 ≤ e.pauseTime ∧ 1 ≤ e.setCount

/-- States reachable from the initial state by repeated `tick`. -/
inductive Reachable (exercises : List Exercise) : WorkoutState → Prop where
  | init : Reachable exercises (createInitialState exercises)
  | step {s : WorkoutState} {r : TickResult} : Reachable exercises s →
      tick s exercises = some r → Reachable exercises r.newState

/-- The exercise pair of the repository's own test suite. -/
def mockExercises : List Exercise :=
  [{ name := "Ex1", workoutTime := 5, pauseTime := 3, setCount := 2,
     intermediateBeeps := some [2] },
   { name := "Ex2", workoutTime := 4, pauseTime := 2, setCount := 1,
     intermediateBeeps := none }]

/-- The exercise of the spec's intermediate-beep example. -/
def beepExercise : Exercise :=
  { name := "Beep", workoutTime := 10, pauseTime := 3, setCount := 1,
    intermediateBeeps := some [5] }

/-! Helper lemmas about `exerciseAt?`. -/

lemma mem_of_exerciseAt? {exercises : List Exercise} {i : Int} {ex : Exercise}
    (h : exerciseAt? exercises i = some ex) : ex ∈ exercises := by
  unfold exerciseAt? at h
  split at h
  · exact List.getElem?_mem h
  · cases h

lemma bounds_of_exerciseAt? {exercises : List Exercise} {i : Int}
    {ex : Exercise} (h : exerciseAt? exercises i = some ex) :
    0 ≤ i ∧ i < (exercises.length : Int) := by
  unfold exerciseAt? at h
  split at h
  · next h0 =>
    refine ⟨h0, ?_⟩
    have h1 : i.toNat < exercises.length :=
      (List.getElem?_eq_some.mp h).1
    omega
  · cases h

lemma exerciseAt?_of_bounds {exercises : List Exercise} {i : Int}
    (h0 : 0 ≤ i) (h1 : i < (exercises.length : Int)) :
    ∃ ex, exerciseAt? exercises i = some ex := by
  unfold exerciseAt?
  rw [if_pos h0]
  have h2 : i.toNat < exercises.length := by omega
  exact ⟨exercises[i.toNat], List.getElem?_eq_getElem h2⟩

/-- Claim C6: on an empty exercise list `createInitialState` returns the
all-zero Finished state; on any non-empty list it returns the Ready state
with exerciseIndex 0, setIndex 1, workoutTimer taken from the first
exercise, and restTimer the fixed lead-in constant 10, independent of any
exercise's configured rest duration. -/
theorem createInitialState_spec :
    createInitialState [] =
      { phase := WorkoutPhase.finished, exerciseIndex := 0, setIndex := 0,
        workoutTimer := 0, pauseTimer := 0 } ∧
    READY_PHASE_DURATION = 10 ∧
    ∀ (e : Exercise) (es : List Exercise),
      createInitialState (e :: es) =
        { phase := WorkoutPhase.ready, exerciseIndex := 0, setIndex := 1,
          workoutTimer := e.workoutTime, pauseTimer := 10 } :=
  ⟨rfl, rfl, fun _ _ => rfl⟩

/-- Claim C8: a tick of a Finished state returns the identical state and no
events, and iterating any number of ticks from a Finished state returns the
same state with an empty accumulated event list. -/
theorem finished_tick_noop (state : WorkoutState) (exercises : List Exercise)
    (h : state.phase = WorkoutPhase.finished) :
    tick state exercises = some { newState := state, events := [] } ∧
    ∀ n : Nat, runTicks exercises n state = some (state, []) := by
  have h1 : tick state exercises = some { newState := state, events := [] } := by
    simp [tick, h, handleFinishedTick]
  refine ⟨h1, fun n => ?_⟩
  induction n with
  | zero => rfl
  | succ n ih => simp [runTicks, h1, ih]

/-- Witness for C8 at the initial state of the empty list, iterated 100
times as in the spec's testable property. -/
theorem finished_tick_noop_witness :
    tick (createInitialState []) [] =
      some { newState := createInitialState [], events := [] } ∧
    runTicks [] 100 (createInitialState []) =
      some (createInitialState [], []) := by
  have h := finished_tick_noop (createInitialState []) [] rfl
  exact ⟨h.1, h.2 100⟩

/-- Claim C1 is refuted by the code: a non-terminal Workout tick with
workoutTimer 1 transitions to Rest emitting only PhaseChanged(Rest); the
PlaySound(Pause) event the claim requires is absent (the repository's own
test suite expects it). -/
theorem workout_to_rest_pause_sound_missing :
    tick { phase := WorkoutPhase.workout, exerciseIndex := 0, setIndex := 1,
           workoutTimer := 1, pauseTimer := 3 } mockExercises =
      some { newState := { phase := WorkoutPhase.rest, exerciseIndex := 0,
                           setIndex := 1, workoutTimer := 1, pauseTimer := 3 },
             events := [WorkoutEvent.phaseChange WorkoutPhase.rest] } ∧
    WorkoutEvent.playSound Sound.pause ∉
      [WorkoutEvent.phaseChange WorkoutPhase.rest] := by
  exact ⟨by decide, by decide⟩

/-- Claim C2 is refuted by the code: running the repository's own mock
exercises from the initial state, the Ready-to-Workout transition (tick 10)
leaves restTimer at 1 instead of resetting it to the first exercise's rest
duration 3, so the first Workout-to-Rest transition (tick 15) happens with
restTimer 1 ≠ 3, and the first rest is skipped on the very next tick
(exactly the bug the repository's "bug reproduction" test flags). -/
theorem first_rest_timer_not_rest_duration :
    (runTicks mockExercises 10 (createInitialState mockExercises)).map
        Prod.fst =
      some { phase := WorkoutPhase.workout, exerciseIndex := 0, setIndex := 1,
             workoutTimer := 5, pauseTimer := 1 } ∧
    (runTicks mockExercises 15 (createInitialState mockExercises)).map
        Prod.fst =
      some { phase := WorkoutPhase.rest, exerciseIndex := 0, setIndex := 1,
             workoutTimer := 1, pauseTimer := 1 } ∧
    ((mockExercises.head?).map Exercise.pauseTime = some 3 ∧ (1 : Int) ≠ 3) ∧
    (runTicks mockExercises 16 (createInitialState mockExercises)).map
        Prod.fst =
      some { phase := WorkoutPhase.workout, exerciseIndex := 0, setIndex := 2,
             workoutTimer := 5, pauseTimer := 3 } := by
  refine ⟨by decide, by decide, ⟨by decide, by decide⟩, by decide⟩

/-- Claim C4: a Ready-phase tick with restTimer above 1 decrements it by
exactly 1, keeps the phase Ready, and emits PlaySound(AlmostStart) exactly
when the post-decrement value lies in {1,2,3}; with restTimer 1 it
transitions to Workout emitting exactly PlaySound(Start),
PhaseChanged(Workout), StartExercise(current exercise name), in that
order. -/
theorem ready_tick_spec (state : WorkoutState) (exercises : List Exercise)
    (_hne : exercises ≠ []) (hphase : state.phase = WorkoutPhase.ready) :
    (state.pauseTimer > 1 →
      tick state exercises =
        some { newState := { state with pauseTimer := state.pauseTimer - 1 },
               events :=
                 if 1 ≤ state.pauseTimer - 1 ∧ state.pauseTimer - 1 ≤ 3 then
                   [WorkoutEvent.playSound Sound.almostStart]
                 else [] }) ∧
    (state.pauseTimer = 1 →
      ∀ ex, exerciseAt? exercises state.exerciseIndex = some ex →
        tick state exercises =
          some { newState := { state with phase := WorkoutPhase.workout },
                 events := [WorkoutEvent.playSound Sound.start,
                            WorkoutEvent.phaseChange WorkoutPhase.workout,
                            WorkoutEvent.startExercise ex.name] }) := by
  constructor
  · intro hpt
    have hcond : (state.pauseTimer - 1 ≤ 3 ∧ state.pauseTimer - 1 > 0) ↔
        (1 ≤ state.pauseTimer - 1 ∧ state.pauseTimer - 1 ≤ 3) := by omega
    simp only [tick, hphase, handleReadyTick, if_pos hpt]
    rw [if_congr hcond rfl rfl]
  · intro hpt ex hex
    simp only [tick, hphase, handleReadyTick]
    rw [if_neg (by omega)]
    simp only [hex]

/-- Witness for C4: a concrete Ready state at restTimer 2 counts down to 1
with the almost-start cue, and a Ready state at restTimer 1 starts the
workout. -/
theorem ready_tick_spec_witness :
    tick { phase := WorkoutPhase.ready, exerciseIndex := 0, setIndex := 1,
           workoutTimer := 5, pauseTimer := 2 } mockExercises =
      some { newState := { phase := WorkoutPhase.ready, exerciseIndex := 0,
                           setIndex := 1, workoutTimer := 5, pauseTimer := 1 },
             events := [WorkoutEvent.playSound Sound.almostStart] } ∧
    tick { phase := WorkoutPhase.ready, exerciseIndex := 0, setIndex := 1,
           workoutTimer := 5, pauseTimer := 1 } mockExercises =
      some { newState := { phase := WorkoutPhase.workout, exerciseIndex := 0,
                           setIndex := 1, workoutTimer := 5, pauseTimer := 1 },
             events := [WorkoutEvent.playSound Sound.start,
                        WorkoutEvent.phaseChange WorkoutPhase.workout,
                        WorkoutEvent.startExercise "Ex1"] } := by
  have h2 := ready_tick_spec
    { phase := WorkoutPhase.ready, exerciseIndex := 0, setIndex := 1,
      workoutTimer := 5, pauseTimer := 2 } mockExercises (by decide) rfl
  have h1 := ready_tick_spec
    { phase := WorkoutPhase.ready, exerciseIndex := 0, setIndex := 1,
      workoutTimer := 5, pauseTimer := 1 } mockExercises (by decide) rfl
  refine ⟨(h2.1 (by decide)).trans (by decide), ?_⟩
  have hex : exerciseAt? mockExercises 0 = some (mockExercises.get ⟨0, by decide⟩) := by decide
  exact (h1.2 rfl _ hex).trans (by decide)

/-- Claim C3: a Workout tick with workoutTimer 1 skips Rest exactly when
the exercise index is the last index and the set index equals that
exercise's set count, going straight to Finished with the single Finished
event and no PhaseChanged(Rest); every other combination transitions to
Rest, not Finished. -/
theorem skip_rest_iff_terminal (state : WorkoutState)
    (exercises : List Exercise) (ex : Exercise)
    (hphase : state.phase = WorkoutPhase.workout)
    (hwt : state.workoutTimer = 1)
    (hex : exerciseAt? exercises state.exerciseIndex = some ex) :
    (state.exerciseIndex = (exercises.length : Int) - 1 ∧
        state.setIndex = ex.setCount →
      tick state exercises =
        some { newState := { state with
                 exerciseIndex := state.exerciseIndex + 1
                 setIndex := 1
                 phase := WorkoutPhase.finished },
               events := [WorkoutEvent.finished] }) ∧
    (¬(state.exerciseIndex = (exercises.length : Int) - 1 ∧
        state.setIndex = ex.setCount) →
      tick state exercises =
        some { newState := { state with phase := WorkoutPhase.rest },
               events := [WorkoutEvent.phaseChange WorkoutPhase.rest] }) := by
  constructor
  · intro hterm
    simp only [tick, hphase, handleWorkoutTick, hex]
    rw [if_neg (by omega)]
    rw [if_pos hterm]
    simp only [advanceToNextRound, hphase, hex, ne_eq, not_true_eq_false,
      if_false]
    rw [if_pos (by omega)]
    rw [if_pos (by omega)]
  · intro hterm
    simp only [tick, hphase, handleWorkoutTick, hex]
    rw [if_neg (by omega)]
    rw [if_neg hterm]
    simp only [transitionToRest, hphase, ne_eq, not_true_eq_false, if_false]

/-- Witness for C3: a single one-set exercise at workoutTimer 1 finishes
directly, with no rest. -/
theorem skip_rest_iff_terminal_witness :
    tick { phase := WorkoutPhase.workout, exerciseIndex := 0, setIndex := 1,
           workoutTimer := 1, pauseTimer := 2 } [beepExercise] =
      some { newState := { phase := WorkoutPhase.finished, exerciseIndex := 1,
                           setIndex := 1, workoutTimer := 1, pauseTimer := 2 },
             events := [WorkoutEvent.finished] } := by
  have h := skip_rest_iff_terminal
    { phase := WorkoutPhase.workout, exerciseIndex := 0, setIndex := 1,
      workoutTimer := 1, pauseTimer := 2 } [beepExercise] beepExercise rfl rfl
    (by decide)
  exact (h.1 (by decide)).trans (by decide)

/-- Claim C10: every pure countdown tick (Ready with restTimer above 1,
Workout with workoutTimer above 1, Rest with restTimer above 1 off the
terminal set) changes only the one decremented timer field; phase, the
indices and the other timer come back unchanged. -/
theorem countdown_tick_frame (state : WorkoutState)
    (exercises : List Exercise) :
    (state.phase = WorkoutPhase.ready → state.pauseTimer > 1 →
      (tick state exercises).map TickResult.newState =
        some { state with pauseTimer := state.pauseTimer - 1 }) ∧
    (state.phase = WorkoutPhase.workout → state.workoutTimer > 1 →
      ∀ ex, exerciseAt? exercises state.exerciseIndex = some ex →
      (tick state exercises).map TickResult.newState =
        some { state with workoutTimer := state.workoutTimer - 1 }) ∧
    (state.phase = WorkoutPhase.rest → state.pauseTimer > 1 →
      ∀ ex, exerciseAt? exercises state.exerciseIndex = some ex →
      ¬(state.exerciseIndex = (exercises.length : Int) - 1 ∧
          state.setIndex = ex.setCount) →
      (tick state exercises).map TickResult.newState =
        some { state with pauseTimer := state.pauseTimer - 1 }) := by
  refine ⟨fun hphase hpt => ?_, fun hphase hwt ex hex => ?_,
    fun hphase hpt ex hex hterm => ?_⟩
  · simp only [tick, hphase, handleReadyTick, if_pos hpt]
    rfl
  · simp only [tick, hphase, handleWorkoutTick, hex, ne_eq, not_true_eq_false,
      if_false]
    rw [if_pos hwt]
    rfl
  · simp only [tick, hphase, handleRestTick, hex, ne_eq, not_true_eq_false,
      if_false]
    rw [if_pos ⟨hpt, hterm⟩]
    rfl

/-- Witness for C10: concrete countdown ticks in each of the three phases
leave every field but the decremented timer unchanged. -/
theorem countdown_tick_frame_witness :
    (tick { phase := WorkoutPhase.ready, exerciseIndex := 0,
            setIndex := 1, workoutTimer := 5, pauseTimer := 10 }
        mockExercises).map TickResult.newState =
      some { phase := WorkoutPhase.ready, exerciseIndex := 0,
             setIndex := 1, workoutTimer := 5, pauseTimer := 9 } ∧
    (tick { phase := WorkoutPhase.workout, exerciseIndex := 0,
            setIndex := 1, workoutTimer := 5, pauseTimer := 3 }
        mockExercises).map TickResult.newState =
      some { phase := WorkoutPhase.workout, exerciseIndex := 0,
             setIndex := 1, workoutTimer := 4, pauseTimer := 3 } ∧
    (tick { phase := WorkoutPhase.rest, exerciseIndex := 0,
            setIndex := 1, workoutTimer := 1, pauseTimer := 3 }
        mockExercises).map TickResult.newState =
      some { phase := WorkoutPhase.rest, exerciseIndex := 0,
             setIndex := 1, workoutTimer := 1, pauseTimer := 2 } := by
  have hex : exerciseAt? mockExercises 0 = some (mockExercises.get ⟨0, by decide⟩) := by
    decide
  have h1 := countdown_tick_frame
    { phase := WorkoutPhase.ready, exerciseIndex := 0, setIndex := 1,
      workoutTimer := 5, pauseTimer := 10 } mockExercises
  have h2 := countdown_tick_frame
    { phase := WorkoutPhase.workout, exerciseIndex := 0, setIndex := 1,
      workoutTimer := 5, pauseTimer := 3 } mockExercises
  have h3 := countdown_tick_frame
    { phase := WorkoutPhase.rest, exerciseIndex := 0, setIndex := 1,
      workoutTimer := 1, pauseTimer := 3 } mockExercises
  exact ⟨h1.1 rfl (by decide), h2.2.1 rfl (by decide) _ hex,
    h3.2.2 rfl (by decide) _ hex (by decide)⟩

/-- Claim C5: a Rest tick with restTimer 1 runs the round-advance logic
(set increment, exercise rollover with StartExercise exactly on an index
change, Finished with the single Finished event and untouched timers when
the index runs off the end, otherwise timers reset from the new current
exercise, phase Workout and the Start/PhaseChanged cues), while a
non-terminal Rest tick with restTimer above 1 just decrements it and cues
AlmostStart exactly on post-decrement values in {1,2,3}. -/
theorem rest_tick_and_advance_spec (state : WorkoutState)
    (exercises : List Exercise) (ex : Exercise)
    (hphase : state.phase = WorkoutPhase.rest)
    (hex : exerciseAt? exercises state.exerciseIndex = some ex) :
    (state.pauseTimer > 1 →
      ¬(state.exerciseIndex = (exercises.length : Int) - 1 ∧
          state.setIndex = ex.setCount) →
      tick state exercises =
        some { newState := { state with pauseTimer := state.pauseTimer - 1 },
               events :=
                 if 1 ≤ state.pauseTimer - 1 ∧ state.pauseTimer - 1 ≤ 3 then
                   [WorkoutEvent.playSound Sound.almostStart]
                 else [] }) ∧
    (state.pauseTimer = 1 → state.setIndex + 1 ≤ ex.setCount →
      tick state exercises =
        some { newState := { state with
                 setIndex := state.setIndex + 1
                 workoutTimer := ex.workoutTime
                 pauseTimer := ex.pauseTime
                 phase := WorkoutPhase.workout },
               events := [WorkoutEvent.playSound Sound.start,
                          WorkoutEvent.phaseChange WorkoutPhase.workout] }) ∧
    (state.pauseTimer = 1 → state.setIndex + 1 > ex.setCount →
      ∀ ex1, exerciseAt? exercises (state.exerciseIndex + 1) = some ex1 →
      tick state exercises =
        some { newState := { state with
                 exerciseIndex := state.exerciseIndex + 1
                 setIndex := 1
                 workoutTimer := ex1.workoutTime
                 pauseTimer := ex1.pauseTime
                 phase := WorkoutPhase.workout },
               events := [WorkoutEvent.startExercise ex1.name,
                          WorkoutEvent.playSound Sound.start,
                          WorkoutEvent.phaseChange WorkoutPhase.workout] }) ∧
    (state.pauseTimer = 1 → state.setIndex + 1 > ex.setCount →
      state.exerciseIndex + 1 ≥ (exercises.length : Int) →
      tick state exercises =
        some { newState := { state with
                 exerciseIndex := state.exerciseIndex + 1
                 setIndex := 1
                 phase := WorkoutPhase.finished },
               events := [WorkoutEvent.finished] }) := by
  refine ⟨fun hpt hterm => ?_, fun hpt hset => ?_,
    fun hpt hset ex1 hex1 => ?_, fun hpt hset hend => ?_⟩
  · have hcond : (state.pauseTimer - 1 ≤ 3 ∧ state.pauseTimer - 1 > 0) ↔
        (1 ≤ state.pauseTimer - 1 ∧ state.pauseTimer - 1 ≤ 3) := by omega
    simp only [tick, hphase, handleRestTick, hex, ne_eq, not_true_eq_false,
      if_false]
    rw [if_pos ⟨hpt, hterm⟩]
    simp only [List.nil_append]
    rw [if_congr hcond rfl rfl]
  · simp only [tick, hphase, handleRestTick, hex, ne_eq, not_true_eq_false,
      if_false]
    rw [if_neg (fun hc => absurd hc.1 (by omega))]
    simp only [advanceToNextRound, hex]
    rw [if_neg (by omega)]
  · have hlt := (bounds_of_exerciseAt? hex1).2
    simp only [tick, hphase, handleRestTick, hex, ne_eq, not_true_eq_false,
      if_false]
    rw [if_neg (fun hc => absurd hc.1 (by omega))]
    simp only [advanceToNextRound, hex, hex1]
    rw [if_pos (by omega)]
    rw [if_neg (by omega)]
  · simp only [tick, hphase, handleRestTick, hex, ne_eq, not_true_eq_false,
      if_false]
    rw [if_neg (fun hc => absurd hc.1 (by omega))]
    simp only [advanceToNextRound, hex]
    rw [if_pos (by omega)]
    rw [if_pos hend]

/-- Witness for C5: concrete Rest ticks of the mock exercise pair hit all
four branches (countdown, next set, next exercise, finish). -/
theorem rest_tick_and_advance_spec_witness :
    tick { phase := WorkoutPhase.rest, exerciseIndex := 0, setIndex := 1,
           workoutTimer := 1, pauseTimer := 3 } mockExercises =
      some { newState := { phase := WorkoutPhase.rest, exerciseIndex := 0,
                           setIndex := 1, workoutTimer := 1, pauseTimer := 2 },
             events := [WorkoutEvent.playSound Sound.almostStart] } ∧
    tick { phase := WorkoutPhase.rest, exerciseIndex := 0, setIndex := 1,
           workoutTimer := 1, pauseTimer := 1 } mockExercises =
      some { newState := { phase := WorkoutPhase.workout, exerciseIndex := 0,
                           setIndex := 2, workoutTimer := 5, pauseTimer := 3 },
             events := [WorkoutEvent.playSound Sound.start,
                        WorkoutEvent.phaseChange WorkoutPhase.workout] } ∧
    tick { phase := WorkoutPhase.rest, exerciseIndex := 0, setIndex := 2,
           workoutTimer := 1, pauseTimer := 1 } mockExercises =
      some { newState := { phase := WorkoutPhase.workout, exerciseIndex := 1,
                           setIndex := 1, workoutTimer := 4, pauseTimer := 2 },
             events := [WorkoutEvent.startExercise "Ex2",
                        WorkoutEvent.playSound Sound.start,
                        WorkoutEvent.phaseChange WorkoutPhase.workout] } ∧
    tick { phase := WorkoutPhase.rest, exerciseIndex := 1, setIndex := 1,
           workoutTimer := 1, pauseTimer := 1 } mockExercises =
      some { newState := { phase := WorkoutPhase.finished, exerciseIndex := 2,
                           setIndex := 1, workoutTimer := 1, pauseTimer := 1 },
             events := [WorkoutEvent.finished] } := by
  have hex0 : exerciseAt? mockExercises 0 =
      some (mockExercises.get ⟨0, by decide⟩) := by decide
  have hex1 : exerciseAt? mockExercises 1 =
      some (mockExercises.get ⟨1, by decide⟩) := by decide
  have ha := rest_tick_and_advance_spec
    { phase := WorkoutPhase.rest, exerciseIndex := 0, setIndex := 1,
      workoutTimer := 1, pauseTimer := 3 } mockExercises _ rfl hex0
  have hb := rest_tick_and_advance_spec
    { phase := WorkoutPhase.rest, exerciseIndex := 0, setIndex := 1,
      workoutTimer := 1, pauseTimer := 1 } mockExercises _ rfl hex0
  have hc := rest_tick_and_advance_spec
    { phase := WorkoutPhase.rest, exerciseIndex := 0, setIndex := 2,
      workoutTimer := 1, pauseTimer := 1 } mockExercises _ rfl hex0
  have hd := rest_tick_and_advance_spec
    { phase := WorkoutPhase.rest, exerciseIndex := 1, setIndex := 1,
      workoutTimer := 1, pauseTimer := 1 } mockExercises _ rfl hex1
  refine ⟨(ha.1 (by decide) (by decide)).trans (by decide),
    (hb.2.1 rfl (by decide)).trans (by decide),
    (hc.2.2.1 rfl (by decide) _ hex1).trans (by decide),
    (hd.2.2.2 rfl (by decide) (by decide)).trans (by decide)⟩

/-- Claim C7: a Workout tick with workoutTimer above 1 decrements it by
exactly 1, emits PlaySound(AlmostPause) exactly when the post-decrement
value is in {1,2,3} and PlaySound(Intermediate) exactly when that value is
one of the exercise's intermediate-beep offsets; the spec's example
exercise (offsets {5}, duration 10) run from the start of its work interval
emits exactly one intermediate beep over the whole run, on the tick where
the timer becomes 5. -/
theorem workout_countdown_spec (state : WorkoutState)
    (exercises : List Exercise) (ex : Exercise)
    (hphase : state.phase = WorkoutPhase.workout)
    (hwt : state.workoutTimer > 1)
    (hex : exerciseAt? exercises state.exerciseIndex = some ex) :
    (tick state exercises =
      some { newState := { state with workoutTimer := state.workoutTimer - 1 },
             events :=
               (if 1 ≤ state.workoutTimer - 1 ∧ state.workoutTimer - 1 ≤ 3 then
                  [WorkoutEvent.playSound Sound.almostPause]
                else []) ++
               (if (ex.intermediateBeeps.getD []).contains
                     (state.workoutTimer - 1) then
                  [WorkoutEvent.playSound Sound.intermediate]
                else []) }) ∧
    (runTicks [beepExercise] 10
        { phase := WorkoutPhase.workout, exerciseIndex := 0, setIndex := 1,
          workoutTimer := 10, pauseTimer := 3 }).map
        (fun p => (p.2.count (WorkoutEvent.playSound Sound.intermediate),
                   p.1.phase)) =
      some (1, WorkoutPhase.finished) ∧
    tick { phase := WorkoutPhase.workout, exerciseIndex := 0, setIndex := 1,
           workoutTimer := 6, pauseTimer := 3 } [beepExercise] =
      some { newState := { phase := WorkoutPhase.workout, exerciseIndex := 0,
                           setIndex := 1, workoutTimer := 5, pauseTimer := 3 },
             events := [WorkoutEvent.playSound Sound.intermediate] } := by
  refine ⟨?_, by decide, by decide⟩
  have hcond : (state.workoutTimer - 1 ≤ 3 ∧ state.workoutTimer - 1 > 0) ↔
      (1 ≤ state.workoutTimer - 1 ∧ state.workoutTimer - 1 ≤ 3) := by omega
  simp only [tick, hphase, handleWorkoutTick, hex, ne_eq, not_true_eq_false,
    if_false]
  rw [if_pos hwt]
  simp only [List.nil_append]
  rw [if_neg (show ¬state.workoutTimer - 1 = 0 by omega)]
  rw [if_congr hcond rfl rfl]
  rcases hb : ex.intermediateBeeps with _ | l
  · simp [hb]
  · simp [hb]

/-- Witness for C7: the general countdown conjunct evaluated one tick into
the beep exercise's work interval. -/
theorem workout_countdown_spec_witness :
    tick { phase := WorkoutPhase.workout, exerciseIndex := 0, setIndex := 1,
           workoutTimer := 10, pauseTimer := 3 } [beepExercise] =
      some { newState := { phase := WorkoutPhase.workout, exerciseIndex := 0,
                           setIndex := 1, workoutTimer := 9, pauseTimer := 3 },
             events := [] } := by
  have h := workout_countdown_spec
    { phase := WorkoutPhase.workout, exerciseIndex := 0, setIndex := 1,
      workoutTimer := 10, pauseTimer := 3 } [beepExercise] beepExercise rfl
    (by decide) (by decide)
  exact h.1.trans (by decide)

/-- Inductive invariant carried through `tick`: non-negative timers and,
off the Finished phase, an in-range exercise index with a set index between
1 and the current exercise's set count. -/
def Inv (exercises : List Exercise) (s : WorkoutState) : Prop :=
  0 ≤ s.workoutTimer ∧ 0 ≤ s.pauseTimer ∧
  (s.phase ≠ WorkoutPhase.finished →
    ∃ ex, exerciseAt? exercises s.exerciseIndex = some ex ∧
      1 ≤ s.setIndex ∧ s.setIndex ≤ ex.setCount)

lemma initial_inv {exercises : List Exercise} (hwf : WellFormed exercises) :
    Inv exercises (createInitialState exercises) := by
  cases exercises with
  | nil => exact ⟨le_refl 0, le_refl 0, fun h => absurd rfl h⟩
  | cons e es =>
    obtain ⟨hw, _hp, hs⟩ := hwf e (List.mem_cons_self e es)
    refine ⟨?_, ?_, fun _ => ⟨e, ?_, ?_, ?_⟩⟩
    · show (0 : Int) ≤ e.workoutTime
      omega
    · show (0 : Int) ≤ 10
      norm_num
    · show exerciseAt? (e :: es) 0 = some e
      simp [exerciseAt?]
    · show (1 : Int) ≤ 1
      norm_num
    · show (1 : Int) ≤ e.setCount
      omega

lemma advance_inv {exercises : List Exercise} (hwf : WellFormed exercises)
    {s : WorkoutState} {ex : Exercise}
    (hex : exerciseAt? exercises s.exerciseIndex = some ex)
    (hwt : 0 ≤ s.workoutTimer) (hpt : 0 ≤ s.pauseTimer)
    (hsi : 1 ≤ s.setIndex) (_hsc : s.setIndex ≤ ex.setCount)
    (r : TickResult) (hr : advanceToNextRound s exercises = some r) :
    Inv exercises r.newState := by
  have hbounds := bounds_of_exerciseAt? hex
  simp only [advanceToNextRound, hex] at hr
  by_cases hcase : s.setIndex + 1 > ex.setCount
  · rw [if_pos hcase] at hr
    by_cases hend : s.exerciseIndex + 1 ≥ (exercises.length : Int)
    · rw [if_pos hend] at hr
      injection hr with h
      subst h
      exact ⟨hwt, hpt, fun h => absurd rfl h⟩
    · rw [if_neg hend] at hr
      obtain ⟨ex1, hex1⟩ := exerciseAt?_of_bounds
        (show (0 : Int) ≤ s.exerciseIndex + 1 by omega)
        (show s.exerciseIndex + 1 < (exercises.length : Int) by omega)
      rw [hex1] at hr
      injection hr with h
      subst h
      obtain ⟨hw1, hp1, hs1⟩ := hwf ex1 (mem_of_exerciseAt? hex1)
      refine ⟨?_, ?_, fun _ => ⟨ex1, hex1, ?_, ?_⟩⟩
      · show (0 : Int) ≤ ex1.workoutTime
        omega
      · show (0 : Int) ≤ ex1.pauseTime
        omega
      · show (1 : Int) ≤ 1
        norm_num
      · show (1 : Int) ≤ ex1.setCount
        omega
  · rw [if_neg hcase] at hr
    injection hr with h
    subst h
    obtain ⟨hw0, hp0, _⟩ := hwf ex (mem_of_exerciseAt? hex)
    refine ⟨?_, ?_, fun _ => ⟨ex, hex, ?_, ?_⟩⟩
    · show (0 : Int) ≤ ex.workoutTime
      omega
    · show (0 : Int) ≤ ex.pauseTime
      omega
    · show (1 : Int) ≤ s.setIndex + 1
      omega
    · show s.setIndex + 1 ≤ ex.setCount
      omega

lemma tick_inv {exercises : List Exercise} (hwf : WellFormed exercises)
    {s : WorkoutState} (hinv : Inv exercises s) {r : TickResult}
    (htick : tick s exercises = some r) : Inv exercises r.newState := by
  obtain ⟨hwt0, hpt0, hrest⟩ := hinv
  cases hph : s.phase
  case ready =>
    obtain ⟨ex, hex, hsi, hsc⟩ := hrest (by rw [hph]; simp)
    simp only [tick, hph, handleReadyTick] at htick
    by_cases hpt : s.pauseTimer > 1
    · rw [if_pos hpt] at htick
      injection htick with h
      subst h
      refine ⟨hwt0, ?_, fun _ => ⟨ex, hex, hsi, hsc⟩⟩
      show (0 : Int) ≤ s.pauseTimer - 1
      omega
    · rw [if_neg hpt] at htick
      rw [hex] at htick
      injection htick with h
      subst h
      exact ⟨hwt0, hpt0, fun _ => ⟨ex, hex, hsi, hsc⟩⟩
  case workout =>
    obtain ⟨ex, hex, hsi, hsc⟩ := hrest (by rw [hph]; simp)
    simp only [tick, hph, handleWorkoutTick, hex, ne_eq, not_true_eq_false,
      if_false] at htick
    by_cases hwt : s.workoutTimer > 1
    · rw [if_pos hwt] at htick
      injection htick with h
      subst h
      refine ⟨?_, hpt0, fun _ => ⟨ex, hex, hsi, hsc⟩⟩
      show (0 : Int) ≤ s.workoutTimer - 1
      omega
    · rw [if_neg hwt] at htick
      by_cases hlast : s.exerciseIndex = (exercises.length : Int) - 1 ∧
          s.setIndex = ex.setCount
      · rw [if_pos hlast] at htick
        exact advance_inv hwf hex hwt0 hpt0 hsi hsc r htick
      · rw [if_neg hlast] at htick
        injection htick with h
        subst h
        exact ⟨hwt0, hpt0, fun _ => ⟨ex, hex, hsi, hsc⟩⟩
  case rest =>
    obtain ⟨ex, hex, hsi, hsc⟩ := hrest (by rw [hph]; simp)
    simp only [tick, hph, handleRestTick, hex, ne_eq, not_true_eq_false,
      if_false] at htick
    by_cases hcond : s.pauseTimer > 1 ∧
        ¬(s.exerciseIndex = (exercises.length : Int) - 1 ∧
            s.setIndex = ex.setCount)
    · rw [if_pos hcond] at htick
      injection htick with h
      subst h
      refine ⟨hwt0, ?_, fun _ => ⟨ex, hex, hsi, hsc⟩⟩
      have := hcond.1
      show (0 : Int) ≤ s.pauseTimer - 1
      omega
    · rw [if_neg hcond] at htick
      exact advance_inv hwf hex hwt0 hpt0 hsi hsc r htick
  case finished =>
    simp only [tick, hph, handleFinishedTick] at htick
    injection htick with h
    subst h
    exact ⟨hwt0, hpt0, hrest⟩

/-- Claim C9: for a well-formed exercise list, every state reachable from
the initial state keeps the exercise index in range off the Finished phase,
keeps the set index between 1 and the current exercise's set count in the
Workout and Rest phases, and keeps both timers non-negative. -/
theorem reachable_state_invariants (exercises : List Exercise)
    (hwf : WellFormed exercises) (s : WorkoutState)
    (hr : Reachable exercises s) :
    (s.phase ≠ WorkoutPhase.finished →
      0 ≤ s.exerciseIndex ∧ s.exerciseIndex < (exercises.length : Int)) ∧
    ((s.phase = WorkoutPhase.workout ∨ s.phase = WorkoutPhase.rest) →
      ∀ ex, exerciseAt? exercises s.exerciseIndex = some ex →
        1 ≤ s.setIndex ∧ s.setIndex ≤ ex.setCount) ∧
    0 ≤ s.workoutTimer ∧ 0 ≤ s.pauseTimer := by
  have hinv : Inv exercises s := by
    induction hr with
    | init => exact initial_inv hwf
    | step hr2 htick ih => exact tick_inv hwf ih htick
  obtain ⟨hwt0, hpt0, hrest⟩ := hinv
  refine ⟨fun hph => ?_, fun hph ex hexgiven => ?_, hwt0, hpt0⟩
  · obtain ⟨ex, hex, _⟩ := hrest hph
    exact bounds_of_exerciseAt? hex
  · have hph2 : s.phase ≠ WorkoutPhase.finished := by
      rcases hph with h | h <;> simp [h]
    obtain ⟨ex2, hex2, hsi, hsc⟩ := hrest hph2
    rw [hexgiven] at hex2
    injection hex2 with h
    subst h
    exact ⟨hsi, hsc⟩

/-- Witness for C9 at the initial state of the mock exercise pair. -/
theorem reachable_state_invariants_witness :
    WellFormed mockExercises ∧
    0 ≤ (createInitialState mockExercises).workoutTimer ∧
    0 ≤ (createInitialState mockExercises).pauseTimer := by
  have hwf : WellFormed mockExercises := by
    unfold WellFormed
    decide
  have h := reachable_state_invariants mockExercises hwf
    (createInitialState mockExercises) Reachable.init
  exact ⟨hwf, h.2.2⟩

end JokkerinVentti
